import Mathlib

/-!
Verification of the `db` package (a schema-driven MySQL data-access core,
`src/api.go`) against its natural-language specification.

The Go source is shallowly embedded: each Go function that the claims touch
is translated into an executable Lean definition of the same name, and the
claims are settled as theorems about those definitions.  Go `int64` is
modelled as `Int` (no arithmetic that can overflow occurs in the translated
code; range checks are written out explicitly where the source performs
them, e.g. `strconv.ParseInt`), Go `float64` as `Rat` (the translated code
only copies, compares to 0/1 and widens, so exact rationals are faithful),
and Go `[]byte` by its byte-string content (`String`), which is exactly how
the source uses it (`string(s)` reinterpretation).
-/

namespace Db

/-! ## TypeCoder: the closed 15-value type-code set (src/api.go lines 86-197) -/

/-- Go constant block `TypeInt ... TypeTimestamp` (iota 0..14). -/
def TypeInt : Int := 0

def TypeBigint : Int := 1

def TypeFloat : Int := 2

def TypeDouble : Int := 3

def TypeDecimal : Int := 4

def TypeChar : Int := 5

def TypeVarchar : Int := 6

def TypeText : Int := 7

def TypeMediumText : Int := 8

def TypeLongtext : Int := 9

def TypeDate : Int := 10

def TypeDatetime : Int := 11

def TypeYear : Int := 12

def TypeTime : Int := 13

def TypeTimestamp : Int := 14

/-- Model of `strings.ToLower` (character-wise lowering; the type names and
catalog flags involved are ASCII). -/
def goToLower (s : String) : String := String.mk (s.toList.map Char.toLower)

/-- Model of `strings.ToUpper`, likewise character-wise. -/
def goToUpper (s : String) : String := String.mk (s.toList.map Char.toUpper)

/-- Go `parseDbType` (src/api.go lines 109-150): case-insensitive switch on the
lowered name over the 15 known type names.  The Go function panics on an
unknown name; the panic is modelled by `none`. -/
def parseDbType (typename : String) : Option Int :=
  match goToLower typename with
  | "int" => some TypeInt
  | "bigint" => some TypeBigint
  | "float" => some TypeFloat
  | "double" => some TypeDouble
  | "decimal" => some TypeDecimal
  | "char" => some TypeChar
  | "varchar" => some TypeVarchar
  | "text" => some TypeText
  | "mediumtext" => some TypeMediumText
  | "longtext" => some TypeLongtext
  | "date" => some TypeDate
  | "datetime" => some TypeDatetime
  | "year" => some TypeYear
  | "timestamp" => some TypeTimestamp
  | "time" => some TypeTime
  | _ => none

/-- Go `formatDbType` (src/api.go lines 153-187): switch on the type code,
returning the lowercase name.  The Go function panics on an unrecognized
code; the panic is modelled by `none`. -/
def formatDbType (typevalue : Int) : Option String :=
  if typevalue = TypeInt then some "int"
  else if typevalue = TypeBigint then some "bigint"
  else if typevalue = TypeFloat then some "float"
  else if typevalue = TypeDouble then some "double"
  else if typevalue = TypeDecimal then some "decimal"
  else if typevalue = TypeChar then some "char"
  else if typevalue = TypeVarchar then some "varchar"
  else if typevalue = TypeText then some "text"
  else if typevalue = TypeMediumText then some "mediumtext"
  else if typevalue = TypeLongtext then some "longtext"
  else if typevalue = TypeDatetime then some "datetime"
  else if typevalue = TypeDate then some "date"
  else if typevalue = TypeYear then some "year"
  else if typevalue = TypeTime then some "time"
  else if typevalue = TypeTimestamp then some "timestamp"
  else none

/-! ## FieldType (src/api.go lines 199-213) -/

/-- Go struct `FieldType` {Name, Value, Length}. -/
structure FieldType where
  name : String
  value : Int
  length : Int
deriving DecidableEq, Inhabited

/-- Go `FieldType.ToSql` (src/api.go lines 207-213): the bare name for the
eight length-less codes, otherwise `name(length)` via `fmt.Sprintf`. -/
def FieldType.toSql (t : FieldType) : String :=
  if t.value = TypeDate ∨ t.value = TypeDatetime ∨ t.value = TypeYear ∨
     t.value = TypeTime ∨ t.value = TypeTimestamp ∨ t.value = TypeText ∨
     t.value = TypeMediumText ∨ t.value = TypeLongtext then
    t.name
  else
    t.name ++ "(" ++ toString t.length ++ ")"

/-! ## Point-in-time values and the two Go time layouts

`convertValue` calls the standard library `time.Parse` with the layouts
`"2006-01-02 15:04:05"` and `"2006-01-02"`, and `time.Time.Format` with the
first layout.  These three standard-library operations are modelled below:
a point in time is its broken-down calendar fields, a layout parse demands
exactly the fixed-width zero-padded digit fields of the layout with the
range validation `time.Parse` performs (month 1-12, day 1-daysIn(month),
hour 0-23, minute/second 0-59), and formatting zero-pads each field.  The
model covers four-digit non-negative years, which is the shape both layouts
prescribe. -/

structure GoTime where
  year : Nat
  month : Nat
  day : Nat
  hour : Nat
  minute : Nat
  second : Nat
deriving DecidableEq, Inhabited

/-- The zero `time.Time`: January 1 of year 1, 00:00:00. -/
def zeroGoTime : GoTime := ⟨1, 1, 1, 0, 0, 0⟩

def isLeapYear (y : Nat) : Bool :=
  y % 4 == 0 && (y % 100 != 0 || y % 400 == 0)

def daysInMonth (y m : Nat) : Nat :=
  if m = 2 then (if isLeapYear y then 29 else 28)
  else if m = 4 ∨ m = 6 ∨ m = 9 ∨ m = 11 then 30
  else 31

def digitVal (c : Char) : Nat := c.toNat - 48

/-- Read exactly two digits. -/
def read2 : List Char → Option (Nat × List Char)
  | a :: b :: rest =>
    if a.isDigit && b.isDigit then some (digitVal a * 10 + digitVal b, rest) else none
  | _ => none

/-- Read exactly four digits. -/
def read4 : List Char → Option (Nat × List Char)
  | a :: b :: c :: d :: rest =>
    if a.isDigit && b.isDigit && c.isDigit && d.isDigit then
      some (digitVal a * 1000 + digitVal b * 100 + digitVal c * 10 + digitVal d, rest)
    else none
  | _ => none

def readLit (c : Char) : List Char → Option (List Char)
  | x :: rest => if x = c then some rest else none
  | _ => none

/-- Parse the date part `"2006-01-02"` of a layout, returning the remaining
input; validates month and day ranges as `time.Parse` does. -/
def readDate (cs : List Char) : Option ((Nat × Nat × Nat) × List Char) := do
  let (y, cs) ← read4 cs
  let cs ← readLit '-' cs
  let (m, cs) ← read2 cs
  let cs ← readLit '-' cs
  let (d, cs) ← read2 cs
  if 1 ≤ m ∧ m ≤ 12 ∧ 1 ≤ d ∧ d ≤ daysInMonth y m then
    pure ((y, m, d), cs)
  else
    none

/-- Model of `time.Parse("2006-01-02", s)`: the whole input is a valid
date; the clock fields are zero. -/
def goTimeParseDate (s : String) : Option GoTime := do
  let ((y, m, d), rest) ← readDate s.toList
  if rest = [] then pure ⟨y, m, d, 0, 0, 0⟩ else none

/-- Model of `time.Parse("2006-01-02 15:04:05", s)`: a valid date, a space,
and a valid 24-hour clock time, consuming the whole input. -/
def goTimeParseFull (s : String) : Option GoTime := do
  let ((y, m, d), cs) ← readDate s.toList
  let cs ← readLit ' ' cs
  let (hh, cs) ← read2 cs
  let cs ← readLit ':' cs
  let (mi, cs) ← read2 cs
  let cs ← readLit ':' cs
  let (ss, cs) ← read2 cs
  if hh ≤ 23 ∧ mi ≤ 59 ∧ ss ≤ 59 ∧ cs = [] then
    pure ⟨y, m, d, hh, mi, ss⟩
  else
    none

def pad2 (n : Nat) : String :=
  if n < 10 then "0" ++ toString n else toString n

def pad4 (n : Nat) : String :=
  if n < 10 then "000" ++ toString n
  else if n < 100 then "00" ++ toString n
  else if n < 1000 then "0" ++ toString n
  else toString n

/-- Model of `t.Format("2006-01-02 15:04:05")`. -/
def formatGoTime (t : GoTime) : String :=
  pad4 t.year ++ "-" ++ pad2 t.month ++ "-" ++ pad2 t.day ++ " " ++
    pad2 t.hour ++ ":" ++ pad2 t.minute ++ ":" ++ pad2 t.second

/-! ## Models of the `strconv` parsers used by `convertValue` -/

def digitsToNat (cs : List Char) : Nat :=
  cs.foldl (fun a c => a * 10 + digitVal c) 0

/-- Model of `strconv.ParseInt(s, 10, 64)`: optional sign, one or more
decimal digits, and an int64 range check (out of range is an error). -/
def goParseInt64 (s : String) : Option Int :=
  let cs := s.toList
  let signDigits : Int × List Char :=
    match cs with
    | '+' :: rest => (1, rest)
    | '-' :: rest => (-1, rest)
    | _ => (1, cs)
  let ds := signDigits.2
  if ds ≠ [] ∧ ds.all (fun c => c.isDigit) then
    let v : Int := signDigits.1 * (digitsToNat ds : Int)
    if -(2 ^ 63) ≤ v ∧ v ≤ 2 ^ 63 - 1 then some v else none
  else
    none

/-- Model of `strconv.ParseFloat(s, 64)` on its plain decimal forms
(optional sign, digits with an optional fraction part, optional `e`/`E`
exponent).  The value is represented as the exact rational the text
denotes; no claim depends on binary-float rounding, `Inf`/`NaN` spellings
or hexadecimal floats, which this model omits. -/
def goParseFloat64 (s : String) : Option Rat :=
  let cs := s.toList
  let signMant : Rat × List Char :=
    match cs with
    | '+' :: rest => (1, rest)
    | '-' :: rest => (-1, rest)
    | _ => (1, cs)
  let intPart := signMant.2.takeWhile (fun c => c.isDigit)
  let rest1 := signMant.2.dropWhile (fun c => c.isDigit)
  let fracRest : List Char × List Char :=
    match rest1 with
    | '.' :: r => (r.takeWhile (fun c => c.isDigit), r.dropWhile (fun c => c.isDigit))
    | _ => ([], rest1)
  let fracPart := fracRest.1
  if intPart = [] ∧ fracPart = [] then none
  else
    let mant : Rat :=
      signMant.1 * ((digitsToNat intPart : Rat) +
        (digitsToNat fracPart : Rat) / ((10 : Rat) ^ fracPart.length))
    let expRest := fracRest.2
    match expRest with
    | [] => some mant
    | 'e' :: r =>
      match goParseInt64 (String.mk r) with
      | some e => some (mant * (10 : Rat) ^ e)
      | none => none
    | 'E' :: r =>
      match goParseInt64 (String.mk r) with
      | some e => some (mant * (10 : Rat) ^ e)
      | none => none
    | _ => none

/-- Model of `strconv.ParseBool`: exactly the twelve accepted spellings. -/
def goParseBool (s : String) : Option Bool :=
  if s = "1" ∨ s = "t" ∨ s = "T" ∨ s = "TRUE" ∨ s = "true" ∨ s = "True" then some true
  else if s = "0" ∨ s = "f" ∨ s = "F" ∨ s = "FALSE" ∨ s = "false" ∨ s = "False" then some false
  else none

/-- Model of `fmt.Sprint` on a `float64`.  `fmt` prints the shortest decimal
that round-trips the binary float; the model prints the exact rational.  No
claim theorem depends on this rendering. -/
def formatGoFloat (q : Rat) : String := toString q

/-! ## The runtime value universe of `convertValue` (src/api.go lines 515-714)

A source `interface{}` value is one of the six base kinds the switch
matches (`int64`, `float64`, `bool`, `string`, `[]byte`, `time.Time`), a
non-nil pointer to one of them, the nil interface, or a `driver.Valuer`
wrapper whose `Value()` yields a base value or nil (this is what the
nullable scratch cells `sql.NullInt64`, `NullTime`, ... produce). -/

inductive BVal where
  | vint (i : Int)
  | vfloat (q : Rat)
  | vbool (b : Bool)
  | vstr (s : String)
  | vbytes (bs : String)
  | vtime (t : GoTime)
deriving DecidableEq

inductive Value where
  | base (v : BVal)
  | ptr (v : BVal)
  | vnil
  | valuer (o : Option BVal)
deriving DecidableEq

/-- A source after the `driver.Valuer` unwrap step: no wrapper remains. -/
inductive UValue where
  | base (v : BVal)
  | ptr (v : BVal)
  | unil
deriving DecidableEq

/-- Go: `if s, ok := src.(driver.Valuer); ok { src, _ = s.Value() }`. -/
def unwrapValuer : Value → UValue
  | .base v => .base v
  | .ptr v => .ptr v
  | .vnil => .unil
  | .valuer (some v) => .base v
  | .valuer none => .unil

def UValue.toValue : UValue → Value
  | .base v => .base v
  | .ptr v => .ptr v
  | .unil => .vnil

/-- The static pointee type of a typed destination pointer. -/
inductive DestKind where
  | dInt
  | dFloat
  | dBool
  | dStr
  | dBytes
  | dTime
deriving DecidableEq

/-- A destination cell handed to `convertValue`: a typed pointer that may be
nil (`isNil`), a `*NullTime` / `*NullBytes` (the two repository types whose
`Scan` makes them `sql.Scanner`s), or some other destination type that
implements no `Scanner` and matches no case of the conversion matrix. -/
inductive Dest where
  | ptr (k : DestKind) (isNil : Bool)
  | nullTimePtr
  | nullBytesPtr
  | otherDest
deriving DecidableEq

/-- Whether the destination satisfies the `dest.(sql.Scanner)` assertion. -/
def Dest.isScanner : Dest → Bool
  | .nullTimePtr => true
  | .nullBytesPtr => true
  | _ => false

/-- Go `%T` rendering of the destination, for the conversion error. -/
def destTypeName : Dest → String
  | .ptr .dInt _ => "*int64"
  | .ptr .dFloat _ => "*float64"
  | .ptr .dBool _ => "*bool"
  | .ptr .dStr _ => "*string"
  | .ptr .dBytes _ => "*[]uint8"
  | .ptr .dTime _ => "*time.Time"
  | .nullTimePtr => "*db.NullTime"
  | .nullBytesPtr => "*db.NullBytes"
  | .otherDest => "<other>"

/-- Go `%T` rendering of a base source value. -/
def srcTypeName : BVal → String
  | .vint _ => "int64"
  | .vfloat _ => "float64"
  | .vbool _ => "bool"
  | .vstr _ => "string"
  | .vbytes _ => "[]uint8"
  | .vtime _ => "time.Time"

/-- The errors `convertValue` can return.  `nilPtr` is `ErrNilPtr`;
`intToBool`/`floatToBool` are the two `errors.New` narrowing errors; the
`parse*` constructors carry the input of a failed `strconv`/`time` parse
(for time, both layouts failed); `typeErr` is the final
`"db: convertValue: type error: %T(%v) => %T"` error, carrying the two
runtime type names. -/
inductive ConvError where
  | nilPtr
  | intToBool (s : Int)
  | floatToBool (s : Rat)
  | parseIntErr (s : String)
  | parseFloatErr (s : String)
  | parseBoolErr (s : String)
  | parseTimeErr (s : String)
  | typeErr (srcTy destTy : String)
deriving DecidableEq

/-- Go struct `NullTime` (src/api.go lines 396-399). -/
structure NullTime where
  time : GoTime
  valid : Bool
deriving DecidableEq

/-- Go struct `NullBytes` (src/api.go lines 415-418); the byte slice is
modelled by its content, the zero (nil) slice by `""`. -/
structure NullBytes where
  bytes : String
  valid : Bool
deriving DecidableEq

/-- Go `NullTime.Scan` (src/api.go lines 402-405):
`nt.Time, nt.Valid = value.(time.Time); return nil` — the two-valued type
assertion either takes the time value with `Valid=true` or zeroes both
fields, and the method always returns a nil error (modelled as `.ok`). -/
def NullTime.scan (value : Value) : Except ConvError NullTime :=
  match value with
  | .base (.vtime t) => .ok ⟨t, true⟩
  | _ => .ok ⟨zeroGoTime, false⟩

/-- Go `NullBytes.Scan` (src/api.go lines 420-423): same shape, asserting
`value.([]byte)`. -/
def NullBytes.scan (value : Value) : Except ConvError NullBytes :=
  match value with
  | .base (.vbytes bs) => .ok ⟨bs, true⟩
  | _ => .ok ⟨"", false⟩

/-- What a successful `convertValue` did to the destination: wrote a base
value through the typed pointer, or delegated to the destination's `Scan`
(whose resulting state is recorded). -/
inductive Assigned where
  | wrote (v : BVal)
  | scannedTime (nt : NullTime)
  | scannedBytes (nb : NullBytes)
deriving DecidableEq

def typeErrFor (s : BVal) (d : Dest) : Except ConvError Assigned :=
  .error (.typeErr (srcTypeName s) (destTypeName d))

/-- The `case string:` arm of `convertValue`'s source switch (src/api.go
lines 631-685), also reached by the `[]byte` arm's
`return convertValue(dest, string(s))` (line 695) for non-`*[]byte`
destinations.  A destination the arm does not match falls through to the
final type error, whose source type is then `string`. -/
def convertStr (dest : Dest) (s : String) : Except ConvError Assigned :=
  match dest with
  | .ptr .dStr isNil =>
    if isNil then .error .nilPtr else .ok (.wrote (.vstr s))
  | .ptr .dInt isNil =>
    if isNil then .error .nilPtr
    else
      match goParseInt64 s with
      | some value => .ok (.wrote (.vint value))
      | none => .error (.parseIntErr s)
  | .ptr .dFloat isNil =>
    if isNil then .error .nilPtr
    else
      match goParseFloat64 s with
      | some value => .ok (.wrote (.vfloat value))
      | none => .error (.parseFloatErr s)
  | .ptr .dBool isNil =>
    if isNil then .error .nilPtr
    else
      match goParseBool s with
      | some value => .ok (.wrote (.vbool value))
      | none => .error (.parseBoolErr s)
  | .ptr .dTime isNil =>
    if isNil then .error .nilPtr
    else
      match goTimeParseFull s with
      | some value => .ok (.wrote (.vtime value))
      | none =>
        match goTimeParseDate s with
        | some value => .ok (.wrote (.vtime value))
        | none => .error (.parseTimeErr s)
  | d => typeErrFor (.vstr s) d

/-- The source switch of `convertValue` on a base (non-pointer, non-nil)
source, for a non-`Scanner` destination (src/api.go lines 522-713 minus the
pointer arms).  Every matched (source, destination) pair checks the
destination pointer for nil first (`ErrNilPtr`); an unmatched pair falls
through to the final type error. -/
def convertBase (dest : Dest) (src : BVal) : Except ConvError Assigned :=
  match src with
  | .vint s =>
    match dest with
    | .ptr .dInt isNil =>
      if isNil then .error .nilPtr else .ok (.wrote (.vint s))
    | .ptr .dStr isNil =>
      if isNil then .error .nilPtr else .ok (.wrote (.vstr (toString s)))
    | .ptr .dBool isNil =>
      if isNil then .error .nilPtr
      else if s = 0 then .ok (.wrote (.vbool false))
      else if s = 1 then .ok (.wrote (.vbool true))
      else .error (.intToBool s)
    | .ptr .dFloat isNil =>
      if isNil then .error .nilPtr else .ok (.wrote (.vfloat (s : Rat)))
    | d => typeErrFor (.vint s) d
  | .vfloat s =>
    match dest with
    | .ptr .dFloat isNil =>
      if isNil then .error .nilPtr else .ok (.wrote (.vfloat s))
    | .ptr .dStr isNil =>
      if isNil then .error .nilPtr else .ok (.wrote (.vstr (formatGoFloat s)))
    | .ptr .dBool isNil =>
      if isNil then .error .nilPtr
      else if s = 0 then .ok (.wrote (.vbool false))
      else if s = 1 then .ok (.wrote (.vbool true))
      else .error (.floatToBool s)
    | d => typeErrFor (.vfloat s) d
  | .vbool s =>
    match dest with
    | .ptr .dBool isNil =>
      if isNil then .error .nilPtr else .ok (.wrote (.vbool s))
    | .ptr .dStr isNil =>
      if isNil then .error .nilPtr
      else .ok (.wrote (.vstr (if s then "true" else "false")))
    | .ptr .dFloat isNil =>
      if isNil then .error .nilPtr
      else .ok (.wrote (.vfloat (if s then 1 else 0)))
    | .ptr .dInt isNil =>
      if isNil then .error .nilPtr
      else .ok (.wrote (.vint (if s then 1 else 0)))
    | d => typeErrFor (.vbool s) d
  | .vstr s => convertStr dest s
  | .vbytes s =>
    match dest with
    | .ptr .dBytes isNil =>
      if isNil then .error .nilPtr else .ok (.wrote (.vbytes s))
    | d => convertStr d s
  | .vtime s =>
    match dest with
    | .ptr .dStr isNil =>
      if isNil then .error .nilPtr else .ok (.wrote (.vstr (formatGoTime s)))
    | .ptr .dTime isNil =>
      if isNil then .error .nilPtr else .ok (.wrote (.vtime s))
    | d => typeErrFor (.vtime s) d

/-- Go `convertValue(dest, src)` (src/api.go lines 515-714).  In source
order: unwrap a `driver.Valuer` source once; delegate entirely to a
`sql.Scanner` destination; dereference a pointer source one level and
re-enter the switch (for a non-`Scanner` destination this is exactly
`convertBase`); a source the switch does not match — in particular the nil
interface — ends in the final type error. -/
def convertValue (dest : Dest) (src : Value) : Except ConvError Assigned :=
  let s := unwrapValuer src
  match dest with
  | .nullTimePtr => (NullTime.scan s.toValue).map Assigned.scannedTime
  | .nullBytesPtr => (NullBytes.scan s.toValue).map Assigned.scannedBytes
  | d =>
    match s with
    | .ptr v => convertBase d v
    | .base v => convertBase d v
    | .unil => .error (.typeErr "<nil>" (destTypeName d))

/-! ## SchemaCatalog: Field, Table and `GetTable` (src/api.go lines 232-393) -/

/-- Go struct `FieldDefault` {Null, Value, CurrentTimestamp}. -/
structure FieldDefault where
  null : Bool
  value : String
  currentTimestamp : Bool
deriving DecidableEq, Inhabited

/-- Go `parseNullable` (src/api.go lines 256-258). -/
def parseNullable (nullable : String) : Bool :=
  goToUpper nullable == "YES"

/-- Go struct `Field` (src/api.go lines 261-270); the Go names `Type` and
`Default` are Lean keywords/core names and become `type` via `fieldType`
and `colDefault`. -/
structure Field where
  name : String
  fullName : String
  fieldType : FieldType
  null : Bool
  key : String
  colDefault : FieldDefault
  extra : String
  comment : String
deriving DecidableEq, Inhabited

/-- Go struct `Table` (src/api.go lines 288-307). -/
structure Table where
  dbName : String
  tbName : String
  fields : List Field
  primaryKey : String
  uniqueIndex : List String
  fullname : String
  sqlInsert : String
  sqlSelect : String
  sqlDelete : String
  sqlUpdate : String
  sqlSelectCount : String
  sqlArgMark : List String
  len : Nat
deriving DecidableEq, Inhabited

/-- One row of the `information_schema.COLUMNS` query in `GetTable`, as it
stands after `rows.Scan` has filled the typed cells (the raw type string
and default already went through `FieldType.Scan` / `FieldDefault.Scan`):
column name, parsed type, parsed default, `IS_NULLABLE` text, `COLUMN_KEY`,
`EXTRA`, `COLUMN_COMMENT`. -/
structure RawRow where
  name : String
  fieldType : FieldType
  colDefault : FieldDefault
  nullable : String
  key : String
  extra : String
  comment : String
deriving DecidableEq, Inhabited

/-- The per-row body of `GetTable`'s scan loop (src/api.go lines 357-374):
derive `Null` from `IS_NULLABLE` and build the qualified
`` table.`column` `` name. -/
def scanField (tbName : String) (r : RawRow) : Field :=
  { name := r.name
    fullName := tbName ++ ".`" ++ r.name ++ "`"
    fieldType := r.fieldType
    null := parseNullable r.nullable
    key := r.key
    colDefault := r.colDefault
    extra := r.extra
    comment := r.comment }

/-- The accumulator of `GetTable`'s loop: the growing `table.Fields`,
`keys`, `table.sqlArgMark`, `table.PrimaryKey` and `table.UniqueIndex`. -/
structure GetTableAcc where
  fields : List Field
  keys : List String
  marks : List String
  primaryKey : String
  uniqueIndex : List String

def getTableStep (tbName : String) (acc : GetTableAcc) (r : RawRow) : GetTableAcc :=
  let row := scanField tbName r
  { fields := acc.fields ++ [row]
    keys := acc.keys ++ [row.fullName]
    marks := acc.marks ++ ["?"]
    primaryKey := if r.key = "PRI" then row.name else acc.primaryKey
    uniqueIndex :=
      if r.key = "PRI" then acc.uniqueIndex
      else if r.key = "UNI" then acc.uniqueIndex ++ [row.name]
      else acc.uniqueIndex }

/-- Go `GetTable` (src/api.go lines 326-393), its pure core: the catalog
query's result rows (ordered by ordinal position) are the input, the I/O
of issuing the query is outside the model.  Mirrors the scan loop, the
zero-column check, and the precomputation of every SQL fragment (note the
trailing space of `sqlSelect`, from `"SELECT %s FROM %s "`). -/
def getTable (dbName tablename : String) (rows : List RawRow) : Except String Table :=
  let acc := rows.foldl (getTableStep tablename) ⟨[], [], [], "", []⟩
  let tlen := acc.fields.length
  if tlen = 0 then
    .error ("the table (" ++ tablename ++ ") columns no found")
  else
    let fullname := dbName ++ "." ++ tablename
    .ok
      { dbName := dbName
        tbName := tablename
        fields := acc.fields
        primaryKey := acc.primaryKey
        uniqueIndex := acc.uniqueIndex
        fullname := fullname
        sqlInsert := "INSERT INTO " ++ fullname
        sqlDelete := "DELETE FROM " ++ fullname
        sqlUpdate := "UPDATE " ++ fullname
        sqlSelect := "SELECT " ++ String.intercalate "," acc.keys ++ " FROM " ++ fullname ++ " "
        sqlSelectCount := "SELECT COUNT(" ++ acc.primaryKey ++ ") FROM " ++ fullname
        sqlArgMark := acc.marks
        len := tlen }

/-! ## QueryBuilder (src/api.go lines 871-977)

The builders' `for i := range args { if args[i] == nil { continue } ... }`
loops are mirrored by index-carrying recursions; an argument list is a
`List (Option α)` (`none` is the Go `nil` skip marker).  Go indexes
`t.Fields[i]` unconditionally and panics when the arguments outnumber the
fields; out-of-range indexing is modelled by `List.getD` with the default
field, and every theorem carries the in-range hypothesis. -/

/-- The filtering loop of `Table.Add` (src/api.go lines 875-881): collect
`t.Fields[i].FullName` and the value at each non-nil position. -/
def addPass (fields : List Field) : List (Option α) → Nat → List String × List α
  | [], _ => ([], [])
  | none :: rest, i => addPass fields rest (i + 1)
  | some v :: rest, i =>
    let r := addPass fields rest (i + 1)
    ((fields.getD i default).fullName :: r.1, v :: r.2)

/-- The filtering loop shared by `Del`/`Get`/`GetMany`/`Find`/`FindMany`/
`Update`/`UpdateMany`/`CountBy` (e.g. src/api.go lines 910-916): collect
`t.Fields[i].FullName+"=?"` and the value at each non-nil position. -/
def wherePass (fields : List Field) : List (Option α) → Nat → List String × List α
  | [], _ => ([], [])
  | none :: rest, i => wherePass fields rest (i + 1)
  | some v :: rest, i =>
    let r := wherePass fields rest (i + 1)
    (((fields.getD i default).fullName ++ "=?") :: r.1, v :: r.2)

/-- Go `Table.Add` (src/api.go lines 872-887), its statement-building core:
the SQL text handed to `Exec` and the bound parameter list.  The
placeholder list is `t.sqlArgMark[:len(listParam)]`. -/
def Table.add (t : Table) (values : List (Option α)) : String × List α :=
  let p := addPass t.fields values 0
  (t.sqlInsert ++ " (" ++ String.intercalate ", " p.1 ++ ") VALUES (" ++
      String.intercalate ", " (t.sqlArgMark.take p.2.length) ++ ")",
    p.2)

/-- Go `Table.Get` (src/api.go lines 907-921), its statement-building core:
AND-joined predicates and a trailing `limit 1`. -/
def Table.get (t : Table) (args : List (Option α)) : String × List α :=
  let p := wherePass t.fields args 0
  (t.sqlSelect ++ " WHERE " ++ String.intercalate " AND " p.1 ++ " limit 1", p.2)

/-- Go `Table.GetMany` (src/api.go lines 923-941): AND-joined predicates,
no limit. -/
def Table.getMany (t : Table) (args : List (Option α)) : String × List α :=
  let p := wherePass t.fields args 0
  (t.sqlSelect ++ " WHERE " ++ String.intercalate " AND " p.1, p.2)

/-- Go `Table.Find` (src/api.go lines 943-957): OR-joined predicates and a
trailing `limit 1`. -/
def Table.find (t : Table) (args : List (Option α)) : String × List α :=
  let p := wherePass t.fields args 0
  (t.sqlSelect ++ " WHERE " ++ String.intercalate " OR " p.1 ++ " limit 1", p.2)

/-- Go `Table.FindMany` (src/api.go lines 959-977): OR-joined predicates,
no limit. -/
def Table.findMany (t : Table) (args : List (Option α)) : String × List α :=
  let p := wherePass t.fields args 0
  (t.sqlSelect ++ " WHERE " ++ String.intercalate " OR " p.1, p.2)

/-! ## Spec-side descriptions of the filtering pass

The claims describe the builders' output declaratively: "the fields at the
non-nil positions, in field order".  These definitions state that wording
directly (a `zip`/`filterMap` over the argument list), to be proved equal
to the index-carrying loops above. -/

/-- The qualified names of the fields at the non-nil positions, in field
order (the claims' description of `Add`'s column list). -/
def selectedCols (fields : List Field) (values : List (Option α)) : List String :=
  (values.zip fields).filterMap (fun p => p.1.map (fun _ => p.2.fullName))

/-- The `field=?` predicates at the non-nil positions, in field order (the
claims' description of the WHERE builders' predicate list). -/
def selectedPreds (fields : List Field) (args : List (Option α)) : List String :=
  (args.zip fields).filterMap (fun p => p.1.map (fun _ => p.2.fullName ++ "=?"))

lemma addPass_eq (fields : List Field) :
    ∀ (values : List (Option α)) (i : Nat), i + values.length ≤ fields.length →
      addPass fields values i =
        ((values.zip (fields.drop i)).filterMap (fun p => p.1.map (fun _ => p.2.fullName)),
          values.filterMap id)
  | [], i, _ => by simp [addPass]
  | none :: rest, i, h => by
    have hi : i < fields.length := by simp at h; omega
    have hrec := addPass_eq fields rest (i + 1) (by simp at h ⊢; omega)
    have hdrop : fields.drop i = fields[i] :: fields.drop (i + 1) :=
      List.drop_eq_getElem_cons hi
    show addPass fields rest (i + 1) = _
    rw [hrec, hdrop]
    rfl
  | some v :: rest, i, h => by
    have hi : i < fields.length := by simp at h; omega
    have hrec := addPass_eq fields rest (i + 1) (by simp at h ⊢; omega)
    have hdrop : fields.drop i = fields[i] :: fields.drop (i + 1) :=
      List.drop_eq_getElem_cons hi
    have hgetD : fields.getD i default = fields[i] := List.getD_eq_getElem fields default hi
    show ((fields.getD i default).fullName :: (addPass fields rest (i + 1)).1,
        v :: (addPass fields rest (i + 1)).2) = _
    rw [hrec, hgetD, hdrop]
    rfl

lemma wherePass_eq (fields : List Field) :
    ∀ (args : List (Option α)) (i : Nat), i + args.length ≤ fields.length →
      wherePass fields args i =
        ((args.zip (fields.drop i)).filterMap (fun p => p.1.map (fun _ => p.2.fullName ++ "=?")),
          args.filterMap id)
  | [], i, _ => by simp [wherePass]
  | none :: rest, i, h => by
    have hi : i < fields.length := by simp at h; omega
    have hrec := wherePass_eq fields rest (i + 1) (by simp at h ⊢; omega)
    have hdrop : fields.drop i = fields[i] :: fields.drop (i + 1) :=
      List.drop_eq_getElem_cons hi
    show wherePass fields rest (i + 1) = _
    rw [hrec, hdrop]
    rfl
  | some v :: rest, i, h => by
    have hi : i < fields.length := by simp at h; omega
    have hrec := wherePass_eq fields rest (i + 1) (by simp at h ⊢; omega)
    have hdrop : fields.drop i = fields[i] :: fields.drop (i + 1) :=
      List.drop_eq_getElem_cons hi
    have hgetD : fields.getD i default = fields[i] := List.getD_eq_getElem fields default hi
    show (((fields.getD i default).fullName ++ "=?") :: (wherePass fields rest (i + 1)).1,
        v :: (wherePass fields rest (i + 1)).2) = _
    rw [hrec, hgetD, hdrop]
    rfl

/-- A skip-nothing loop: with every argument nil, neither predicates nor
parameters are collected, whatever the field list. -/
lemma wherePass_allNone (fields : List Field) :
    ∀ (args : List (Option α)) (i : Nat), (∀ a ∈ args, a = none) →
      wherePass fields args i = ([], [])
  | [], i, _ => rfl
  | none :: rest, i, h => by
    exact wherePass_allNone fields rest (i + 1) (fun a ha => h a (List.mem_cons_of_mem _ ha))
  | some v :: rest, i, h => by
    have hv := h (some v) (List.mem_cons_self _ _)
    exact absurd hv (by simp)

/-- Both components of the filtered pass count the non-nil positions:
the selected list and the parameter list have equal length. -/
lemma selected_length {β : Type} (g : Field → β) :
    ∀ (values : List (Option α)) (fields : List Field),
      values.length ≤ fields.length →
      ((values.zip fields).filterMap (fun p => p.1.map (fun _ => g p.2))).length =
        (values.filterMap id).length
  | [], _, _ => by simp
  | v :: rest, [], h => by simp at h
  | none :: rest, f :: fs, h => by
    simpa using selected_length g rest fs (by simpa using h)
  | some v :: rest, f :: fs, h => by
    simpa using selected_length g rest fs (by simpa using h)

/-- The `GetTable` scan loop grows the field list and the placeholder list
in lockstep: starting from any accumulator, the placeholder list gains one
`"?"` per row. -/
lemma getTable_foldl_marks (tb : String) :
    ∀ (rows : List RawRow) (acc : GetTableAcc),
      (rows.foldl (getTableStep tb) acc).fields.length = acc.fields.length + rows.length ∧
      (rows.foldl (getTableStep tb) acc).marks = acc.marks ++ List.replicate rows.length "?"
  | [], acc => by simp
  | r :: rest, acc => by
    have hrec := getTable_foldl_marks tb rest (getTableStep tb acc r)
    simp only [List.foldl_cons] at *
    refine ⟨?_, ?_⟩
    · rw [hrec.1]; simp [getTableStep]; omega
    · rw [hrec.2]; simp [getTableStep, List.replicate_succ]

/-! ## The claims -/

/-- Claim C1: for every int64 source value `s` and a boolean destination
cell, `coerce` maps `s = 0` to `false` and `s = 1` to `true`, and for every
other int64 value it returns a conversion error — and, the error being
returned before any write, the destination is not assigned (an error result
of the model carries no `Assigned` value); an int64 source into an int64
destination copies the value exactly. -/
theorem claim_C1 (s : Int) :
    convertValue (Dest.ptr .dInt false) (.base (.vint s)) = .ok (.wrote (.vint s)) ∧
    convertValue (Dest.ptr .dBool false) (.base (.vint s)) =
      (if s = 0 then .ok (.wrote (.vbool false))
       else if s = 1 then .ok (.wrote (.vbool true))
       else .error (.intToBool s)) :=
  ⟨rfl, rfl⟩

/-- Claim C2: for every string source `s` and a point-in-time destination,
`coerce` first attempts the full layout `"YYYY-MM-DD HH:MM:SS"`, falls back
to the date-only layout `"YYYY-MM-DD"`, assigns on the first success and
errors only when both fail; witnessed on the spec's three examples (the
date-only example genuinely takes the fallback: the full layout rejects
it). -/
theorem claim_C2 :
    (∀ s : String,
      convertValue (Dest.ptr .dTime false) (.base (.vstr s)) =
        match goTimeParseFull s with
        | some t => .ok (.wrote (.vtime t))
        | none =>
          match goTimeParseDate s with
          | some t => .ok (.wrote (.vtime t))
          | none => .error (.parseTimeErr s)) ∧
    convertValue (Dest.ptr .dTime false) (.base (.vstr "2024-01-02 03:04:05")) =
      .ok (.wrote (.vtime ⟨2024, 1, 2, 3, 4, 5⟩)) ∧
    goTimeParseFull "2024-01-02" = none ∧
    convertValue (Dest.ptr .dTime false) (.base (.vstr "2024-01-02")) =
      .ok (.wrote (.vtime ⟨2024, 1, 2, 0, 0, 0⟩)) ∧
    convertValue (Dest.ptr .dTime false) (.base (.vstr "not-a-date")) =
      .error (.parseTimeErr "not-a-date") :=
  ⟨fun _ => rfl, rfl, rfl, rfl, rfl⟩

/-- Claim C6: for every type code in the closed 15-value set, parsing the
formatted name yields the original code, and the parse is case-insensitive
(the fully uppercased name parses to the same code). -/
theorem claim_C6 (c : Int) (h0 : 0 ≤ c) (h1 : c < 15) :
    ((formatDbType c).bind parseDbType = some c) ∧
    (((formatDbType c).map goToUpper).bind parseDbType = some c) := by
  interval_cases c <;> exact ⟨by decide, by decide⟩

/-- Claim C6 witness: the round trip at code 6 (`varchar`). -/
theorem claim_C6_witness :
    ((formatDbType 6).bind parseDbType = some 6) ∧
    (((formatDbType 6).map goToUpper).bind parseDbType = some 6) :=
  claim_C6 6 (by decide) (by decide)

/-- Claim C7: the generated DDL type-clause is the bare type name exactly
when the field's code is in {Date, Datetime, Year, Time, Timestamp, Text,
MediumText, Longtext}, and otherwise the name followed by the parenthesized
length. -/
theorem claim_C7 (t : FieldType) :
    t.toSql =
      if t.value ∈ [TypeDate, TypeDatetime, TypeYear, TypeTime, TypeTimestamp,
          TypeText, TypeMediumText, TypeLongtext] then
        t.name
      else
        t.name ++ "(" ++ toString t.length ++ ")" := by
  by_cases h : t.value = TypeDate ∨ t.value = TypeDatetime ∨ t.value = TypeYear ∨
      t.value = TypeTime ∨ t.value = TypeTimestamp ∨ t.value = TypeText ∨
      t.value = TypeMediumText ∨ t.value = TypeLongtext
  · rw [FieldType.toSql, if_pos h, if_pos (by simpa using h)]
  · rw [FieldType.toSql, if_neg h, if_neg (by simpa using h)]

/-- Claim C9: for every destination that is not a `sql.Scanner`, coercing
from a nil source — or from a `driver.Valuer` wrapper holding no value,
which unwraps to nil — returns a conversion error (and, errors carrying no
`Assigned` value, the destination is left unchanged): a SQL NULL cannot be
decoded into a plain non-nullable destination. -/
theorem claim_C9 (d : Dest) (h : d.isScanner = false) :
    convertValue d Value.vnil = .error (.typeErr "<nil>" (destTypeName d)) ∧
    convertValue d (Value.valuer none) = .error (.typeErr "<nil>" (destTypeName d)) := by
  cases d with
  | ptr k isNil => cases k <;> exact ⟨rfl, rfl⟩
  | nullTimePtr => exact absurd h (by simp [Dest.isScanner])
  | nullBytesPtr => exact absurd h (by simp [Dest.isScanner])
  | otherDest => exact ⟨rfl, rfl⟩

/-- Claim C9 witness: a non-nil `*int64` destination is not a `Scanner`,
and both NULL-shaped sources yield the conversion error. -/
theorem claim_C9_witness :
    convertValue (Dest.ptr .dInt false) Value.vnil =
      .error (.typeErr "<nil>" "*int64") ∧
    convertValue (Dest.ptr .dInt false) (Value.valuer none) =
      .error (.typeErr "<nil>" "*int64") :=
  claim_C9 (Dest.ptr .dInt false) rfl

/-- Claim C10: `NullTime.Scan` and `NullBytes.Scan` return a nil error for
every input value; an input of the expected kind is taken with the presence
flag set, and any other input (SQL NULL included) zeroes the payload and
clears the flag instead of reporting an error. -/
theorem claim_C10 :
    (∀ (v : Value) (t : GoTime), v = .base (.vtime t) → NullTime.scan v = .ok ⟨t, true⟩) ∧
    (∀ v : Value, (∀ t : GoTime, v ≠ .base (.vtime t)) →
      NullTime.scan v = .ok ⟨zeroGoTime, false⟩) ∧
    (∀ (v : Value) (bs : String), v = .base (.vbytes bs) → NullBytes.scan v = .ok ⟨bs, true⟩) ∧
    (∀ v : Value, (∀ bs : String, v ≠ .base (.vbytes bs)) →
      NullBytes.scan v = .ok ⟨"", false⟩) := by
  refine ⟨?_, ?_, ?_, ?_⟩
  · rintro v t rfl; rfl
  · intro v hv
    cases v with
    | base b => cases b <;> first | rfl | exact absurd rfl (hv _)
    | ptr b => rfl
    | vnil => rfl
    | valuer o => rfl
  · rintro v bs rfl; rfl
  · intro v hv
    cases v with
    | base b => cases b <;> first | rfl | exact absurd rfl (hv _)
    | ptr b => rfl
    | vnil => rfl
    | valuer o => rfl

/-- Claim C10 witness: a time value is taken with `Valid=true`; the nil
interface zeroes both wrappers with a nil error. -/
theorem claim_C10_witness :
    NullTime.scan (Value.base (BVal.vtime ⟨2024, 1, 2, 3, 4, 5⟩)) =
      .ok ⟨⟨2024, 1, 2, 3, 4, 5⟩, true⟩ ∧
    NullTime.scan Value.vnil = .ok ⟨zeroGoTime, false⟩ ∧
    NullBytes.scan Value.vnil = .ok ⟨"", false⟩ :=
  ⟨claim_C10.1 _ _ rfl,
   claim_C10.2.1 Value.vnil (fun _ h => Value.noConfusion h),
   claim_C10.2.2.2 Value.vnil (fun _ h => Value.noConfusion h)⟩

/-- Claim C3: `Add` lists exactly the qualified names of the fields at the
non-nil positions, in field order, and the `?` placeholders in the VALUES
clause are as many as the listed columns.  `t.sqlArgMark` is the
placeholder pool a loaded table carries (one `"?"` per field); the
arguments may not outnumber the fields (Go panics on `t.Fields[i]`
otherwise). -/
theorem claim_C3 (t : Table) (values : List (Option α))
    (h1 : values.length ≤ t.fields.length)
    (h2 : t.sqlArgMark = List.replicate t.fields.length "?") :
    (t.add values).1 =
      t.sqlInsert ++ " (" ++ String.intercalate ", " (selectedCols t.fields values) ++
        ") VALUES (" ++
        String.intercalate ", " (List.replicate (selectedCols t.fields values).length "?") ++
        ")" ∧
    (t.add values).2 = values.filterMap id := by
  have hp := addPass_eq t.fields values 0 (by simpa using h1)
  rw [List.drop_zero] at hp
  have hfl : (values.filterMap id).length ≤ t.fields.length :=
    le_trans (List.length_filterMap_le _ _) h1
  have hlen := selected_length (fun f => f.fullName) values t.fields h1
  have hmarks : t.sqlArgMark.take (values.filterMap id).length =
      List.replicate (selectedCols t.fields values).length "?" := by
    rw [h2, List.take_replicate, selectedCols, hlen, Nat.min_eq_left hfl]
  constructor
  · show t.sqlInsert ++ " (" ++ String.intercalate ", " (addPass t.fields values 0).1 ++
        ") VALUES (" ++
        String.intercalate ", " (t.sqlArgMark.take (addPass t.fields values 0).2.length) ++
        ")" = _
    rw [hp]
    show t.sqlInsert ++ " (" ++ _ ++ ") VALUES (" ++
        String.intercalate ", " (t.sqlArgMark.take (values.filterMap id).length) ++ ")" = _
    rw [hmarks]
    rfl
  · show (addPass t.fields values 0).2 = _
    rw [hp]

/-- Claim C4: with at least one non-nil argument, `Get` joins the `field=?`
predicates of the non-nil positions with AND and appends a `limit 1`
clause, `Find` joins the same predicate list with OR (same `limit 1`), the
bound parameters are the non-nil arguments in both, and with exactly one
predicate the two joined clauses coincide. -/
theorem claim_C4 (t : Table) (args : List (Option α))
    (h1 : args.length ≤ t.fields.length)
    (h2 : args.filterMap id ≠ []) :
    (t.get args).1 = t.sqlSelect ++ " WHERE " ++
        String.intercalate " AND " (selectedPreds t.fields args) ++ " limit 1" ∧
    (t.find args).1 = t.sqlSelect ++ " WHERE " ++
        String.intercalate " OR " (selectedPreds t.fields args) ++ " limit 1" ∧
    (t.get args).2 = args.filterMap id ∧
    (t.find args).2 = args.filterMap id ∧
    ((selectedPreds t.fields args).length = 1 →
      String.intercalate " AND " (selectedPreds t.fields args) =
        String.intercalate " OR " (selectedPreds t.fields args)) := by
  have hp := wherePass_eq t.fields args 0 (by simpa using h1)
  rw [List.drop_zero] at hp
  refine ⟨?_, ?_, ?_, ?_, ?_⟩
  · show t.sqlSelect ++ " WHERE " ++
        String.intercalate " AND " (wherePass t.fields args 0).1 ++ " limit 1" = _
    rw [hp]
    rfl
  · show t.sqlSelect ++ " WHERE " ++
        String.intercalate " OR " (wherePass t.fields args 0).1 ++ " limit 1" = _
    rw [hp]
    rfl
  · show (wherePass t.fields args 0).2 = _
    rw [hp]
  · show (wherePass t.fields args 0).2 = _
    rw [hp]
  · intro hl
    obtain ⟨x, hx⟩ := List.length_eq_one.mp hl
    rw [hx]
    rfl

/-- Claim C5: a catalog query returning zero column rows makes `GetTable`
return the "columns no found" error and never a `Table`; every successfully
returned `Table` has a nonempty field list, `Len` equal to its length, and
exactly one `?` placeholder per field. -/
theorem claim_C5 (dbName tablename : String) :
    getTable dbName tablename [] =
      .error ("the table (" ++ tablename ++ ") columns no found") ∧
    ∀ (rows : List RawRow) (t : Table), getTable dbName tablename rows = .ok t →
      t.fields ≠ [] ∧ t.len = t.fields.length ∧
      t.sqlArgMark = List.replicate t.fields.length "?" := by
  constructor
  · rfl
  · intro rows t h
    have hfold := getTable_foldl_marks tablename rows ⟨[], [], [], "", []⟩
    simp only [getTable] at h
    split at h
    · cases h
    · rename_i hz
      cases h
      dsimp only
      refine ⟨?_, rfl, ?_⟩
      · intro hnil
        exact hz (by rw [hnil]; rfl)
      · rw [hfold.2, hfold.1]
        simp

/-- Claim C8: with every positional argument nil (the empty list included),
`Find` and `FindMany` emit a statement whose WHERE keyword is followed by
an empty predicate string, with no `field=?` terms and no bound
arguments. -/
theorem claim_C8 (t : Table) (args : List (Option α))
    (h : ∀ a ∈ args, a = none) :
    (t.find args).1 = t.sqlSelect ++ " WHERE " ++ "" ++ " limit 1" ∧
    (t.find args).2 = [] ∧
    (t.findMany args).1 = t.sqlSelect ++ " WHERE " ++ "" ∧
    (t.findMany args).2 = [] := by
  have hw := wherePass_allNone t.fields args 0 h
  refine ⟨?_, ?_, ?_, ?_⟩
  · show t.sqlSelect ++ " WHERE " ++
        String.intercalate " OR " (wherePass t.fields args 0).1 ++ " limit 1" = _
    rw [hw]
    rfl
  · show (wherePass t.fields args 0).2 = _
    rw [hw]
  · show t.sqlSelect ++ " WHERE " ++
        String.intercalate " OR " (wherePass t.fields args 0).1 = _
    rw [hw]
    rfl
  · show (wherePass t.fields args 0).2 = _
    rw [hw]

/-! ## A concrete loaded table for the witnesses

The spec's running example: a three-field table {id, name, score}. -/

def rowsEx : List RawRow :=
  [⟨"id", ⟨"int", TypeInt, 11⟩, ⟨true, "NULL", false⟩, "NO", "PRI", "auto_increment", ""⟩,
   ⟨"name", ⟨"varchar", TypeVarchar, 255⟩, ⟨true, "NULL", false⟩, "YES", "UNI", "", ""⟩,
   ⟨"score", ⟨"int", TypeInt, 11⟩, ⟨true, "NULL", false⟩, "YES", "", "", ""⟩]

/-- The table `GetTable "mydb" "t" rowsEx` produces. -/
def exTable : Table :=
  { dbName := "mydb"
    tbName := "t"
    fields :=
      [{ name := "id", fullName := "t.`id`", fieldType := ⟨"int", TypeInt, 11⟩,
         null := false, key := "PRI", colDefault := ⟨true, "NULL", false⟩,
         extra := "auto_increment", comment := "" },
       { name := "name", fullName := "t.`name`", fieldType := ⟨"varchar", TypeVarchar, 255⟩,
         null := true, key := "UNI", colDefault := ⟨true, "NULL", false⟩,
         extra := "", comment := "" },
       { name := "score", fullName := "t.`score`", fieldType := ⟨"int", TypeInt, 11⟩,
         null := true, key := "", colDefault := ⟨true, "NULL", false⟩,
         extra := "", comment := "" }]
    primaryKey := "id"
    uniqueIndex := ["name"]
    fullname := "mydb.t"
    sqlInsert := "INSERT INTO mydb.t"
    sqlSelect := "SELECT t.`id`,t.`name`,t.`score` FROM mydb.t "
    sqlDelete := "DELETE FROM mydb.t"
    sqlUpdate := "UPDATE mydb.t"
    sqlSelectCount := "SELECT COUNT(id) FROM mydb.t"
    sqlArgMark := ["?", "?", "?"]
    len := 3 }

/-- Claim C3 witness: `Add(nil, "x", 5)` on the example table touches
exactly {name, score}, in that order, with two placeholders. -/
theorem claim_C3_witness :
    (exTable.add [none, some (BVal.vstr "x"), some (BVal.vint 5)]).1 =
      "INSERT INTO mydb.t (t.`name`, t.`score`) VALUES (?, ?)" ∧
    ((exTable.add [none, some (BVal.vstr "x"), some (BVal.vint 5)]).1 =
      exTable.sqlInsert ++ " (" ++
        String.intercalate ", "
          (selectedCols exTable.fields [none, some (BVal.vstr "x"), some (BVal.vint 5)]) ++
        ") VALUES (" ++
        String.intercalate ", "
          (List.replicate
            (selectedCols exTable.fields
              [none, some (BVal.vstr "x"), some (BVal.vint 5)]).length "?") ++
        ")" ∧
     (exTable.add [none, some (BVal.vstr "x"), some (BVal.vint 5)]).2 =
       List.filterMap id [none, some (BVal.vstr "x"), some (BVal.vint 5)]) :=
  ⟨rfl, claim_C3 exTable [none, some (BVal.vstr "x"), some (BVal.vint 5)]
    (by decide) rfl⟩

/-- Claim C4 witness: `Get(nil, "x", nil)` and `Find(nil, "x", nil)` on the
example table produce the identical single-term clause. -/
theorem claim_C4_witness :
    (exTable.get [none, some (BVal.vstr "x"), none]).1 =
      "SELECT t.`id`,t.`name`,t.`score` FROM mydb.t  WHERE t.`name`=? limit 1" ∧
    (exTable.find [none, some (BVal.vstr "x"), none]).1 =
      "SELECT t.`id`,t.`name`,t.`score` FROM mydb.t  WHERE t.`name`=? limit 1" ∧
    ((exTable.get [none, some (BVal.vstr "x"), none]).1 =
      exTable.sqlSelect ++ " WHERE " ++
        String.intercalate " AND "
          (selectedPreds exTable.fields [none, some (BVal.vstr "x"), none]) ++ " limit 1" ∧
     (exTable.find [none, some (BVal.vstr "x"), none]).1 =
      exTable.sqlSelect ++ " WHERE " ++
        String.intercalate " OR "
          (selectedPreds exTable.fields [none, some (BVal.vstr "x"), none]) ++ " limit 1" ∧
     (exTable.get [none, some (BVal.vstr "x"), none]).2 =
       List.filterMap id [none, some (BVal.vstr "x"), none] ∧
     (exTable.find [none, some (BVal.vstr "x"), none]).2 =
       List.filterMap id [none, some (BVal.vstr "x"), none] ∧
     ((selectedPreds exTable.fields [none, some (BVal.vstr "x"), none]).length = 1 →
       String.intercalate " AND "
           (selectedPreds exTable.fields [none, some (BVal.vstr "x"), none]) =
         String.intercalate " OR "
           (selectedPreds exTable.fields [none, some (BVal.vstr "x"), none]))) :=
  ⟨rfl, rfl, claim_C4 exTable [none, some (BVal.vstr "x"), none]
    (by decide) (by decide)⟩

/-- Claim C5 witness: the empty catalog result errors; the example table is
well-formed (3 fields, 3 placeholders). -/
theorem claim_C5_witness :
    getTable "mydb" "t" [] = .error ("the table (" ++ "t" ++ ") columns no found") ∧
    (exTable.fields ≠ [] ∧ exTable.len = exTable.fields.length ∧
      exTable.sqlArgMark = List.replicate exTable.fields.length "?") :=
  ⟨(claim_C5 "mydb" "t").1, (claim_C5 "mydb" "t").2 rowsEx exTable rfl⟩

/-- Claim C8 witness: `Find(nil, nil)` on the example table emits a WHERE
keyword followed by an empty predicate string and binds nothing. -/
theorem claim_C8_witness :
    (exTable.find ([none, none] : List (Option BVal))).1 =
      exTable.sqlSelect ++ " WHERE " ++ "" ++ " limit 1" ∧
    (exTable.find ([none, none] : List (Option BVal))).2 = [] ∧
    (exTable.findMany ([none, none] : List (Option BVal))).1 =
      exTable.sqlSelect ++ " WHERE " ++ "" ∧
    (exTable.findMany ([none, none] : List (Option BVal))).2 = [] :=
  claim_C8 exTable [none, none] (by decide)

end Db
